import Mathlib

/-!
Verification development for the vts-mapproxy core: a shallow embedding of
the generator registry, the updater thread's wait logic, the preparation
worker, the DEM-to-metatile synthesis and the calipers measurement tool,
translated from `src/mapproxy/src/mapproxy/generator/generator.cpp`,
`src/mapproxy/src/mapproxy/generator/metatile.cpp` and
`src/calipers/main.cpp`.

Machine doubles are modelled as rationals (`ℚ`); the `double` sentinels
`std::numeric_limits<double>::max()` / `lowest()` become the rational
constants `dblMax` / `dblLowest`.  External collaborators (coordinate
converters, the GDAL warper's output raster, the tile index, the mask
tree, the reference frame) are abstracted as function-valued parameters,
exactly at the interfaces the C++ code consumes them through.
-/

namespace Mapproxy

deriving instance DecidableEq for Except

/-- Model of `std::numeric_limits<double>::max()`. -/
def dblMax : ℚ := ((2 ^ 1024 : ℕ) : ℚ)

/-- Model of `std::numeric_limits<double>::lowest()`. -/
def dblLowest : ℚ := -dblMax

/-! ## Calipers: dataset type auto-detection (`src/calipers/main.cpp`, `detectType`) -/

/-- `DatasetType` enumeration from `calipers/main.cpp`
(`UTILITY_GENERATE_ENUM(DatasetType, ((dem))((ophoto)))`). -/
inductive DatasetType where
  | dem
  | ophoto
  deriving DecidableEq, Repr

/-- The GDAL raster data types that `detectType` can discriminate on.
Only `GDT_Byte` is tested by the code; the other constructors stand for
every other `GDALDataType` value. -/
inductive GdalDataType where
  | byte
  | uint16
  | int16
  | uint32
  | int32
  | float32
  | float64
  deriving DecidableEq, Repr

/-- Errors thrown by the embedded calipers functions. -/
inductive CalipersError where
  | unsupportedBandCount (bands : ℕ)
  deriving DecidableEq, Repr

/-- Embedding of `detectType` (`calipers/main.cpp` lines 154-174): a forced
type is returned unconditionally; else ≥3 bands is an ophoto, a band count
other than 1 is fatal, a single `Byte` band is a (monochromatic) ophoto and
any other single band is a DEM. -/
def detectType (bands : ℕ) (dataType : GdalDataType)
    (forcedType : Option DatasetType) : Except CalipersError DatasetType :=
  match forcedType with
  | some t => .ok t
  | none =>
    if bands ≥ 3 then .ok .ophoto
    else if bands ≠ 1 then .error (.unsupportedBandCount bands)
    else if dataType = .byte then .ok .ophoto
    else .ok .dem

/-! ## Calipers: border refinement (`src/calipers/main.cpp`, `Node::divideBorderBlock`) -/

/-- `math::Size2f`: a 2D size with rational components. -/
structure Size2f where
  width : ℚ
  height : ℚ
  deriving DecidableEq, Repr

/-- `math::Extents2`: an axis-aligned 2D box given by its lower-left and
upper-right corners. -/
structure Extents2 where
  llx : ℚ
  lly : ℚ
  urx : ℚ
  ury : ℚ
  deriving DecidableEq, Repr

/-- Center of a 2D extents box (`math::center`). -/
def Extents2.centerX (e : Extents2) : ℚ := (e.llx + e.urx) / 2

/-- Center of a 2D extents box (`math::center`). -/
def Extents2.centerY (e : Extents2) : ℚ := (e.lly + e.ury) / 2

/-- A 2D point produced by the dataset-to-node SRS conversion. -/
abbrev OptPoint2 := Option (ℚ × ℚ)

/-- `OptCorners`: the four optional corners of a (sub)block, in the order
used by `math::vertices(extents)` (ll, ul, ur, lr). -/
structure OptCorners where
  c0 : OptPoint2
  c1 : OptPoint2
  c2 : OptPoint2
  c3 : OptPoint2
  deriving DecidableEq, Repr

/-- Number of valid corners of an `OptCorners` quadruple. -/
def OptCorners.validCount (c : OptCorners) : ℕ :=
  (if c.c0.isSome then 1 else 0) + (if c.c1.isSome then 1 else 0)
    + (if c.c2.isSome then 1 else 0) + (if c.c3.isSome then 1 else 0)

/-- Embedding of the file-scope predicate `partial(const OptCorners&)` from
`calipers/main.cpp`: between 1 and 3 corners are valid. -/
def OptCorners.mixed (c : OptCorners) : Bool :=
  0 < c.validCount && c.validCount < 4

/-- The source-block size limit computed in `Node::sample`
(`calipers/main.cpp` lines 396-402):
`tileSize / (invGsdScale * tileFractionLimit)` per dimension. -/
def sourceBlockLimit (tileSize : Size2f)
    (invGsdScale tileFractionLimit : ℚ) : Size2f :=
  ⟨tileSize.width / (invGsdScale * tileFractionLimit)
   , tileSize.height / (invGsdScale * tileFractionLimit)⟩

/-- Embedding of `Node::divideBorderBlock` (`calipers/main.cpp` lines
408-472).  The dataset-to-node conversion `Node::convert` (a coordinate
transform plus an inside-the-node test) is abstracted as the parameter
`convert`; the accumulation of successfully converted points into
`localExtents` is a side effect orthogonal to the recursion and is not
tracked here.  The function returns the number of blocks that were
actually subdivided (i.e. that passed the size guard), so a return value
of `0` means the recursion stopped immediately.  The C++ recursion
terminates because the block pixel size is halved at each level; the
embedding makes this explicit with a `fuel` argument. -/
def divideBorderBlock (convert : ℚ → ℚ → OptPoint2) (lim : Size2f) :
    ℕ → Size2f → Extents2 → OptCorners → ℕ
  | 0, _, _, _ => 0
  | fuel + 1, blockPxSize, extents, corners =>
    if blockPxSize.width < lim.width ∧ blockPxSize.height < lim.height then
      -- too little source
      0
    else
      -- halve pixel size
      let half : Size2f := ⟨blockPxSize.width / 2, blockPxSize.height / 2⟩
      let ecx := extents.centerX
      let ecy := extents.centerY
      -- try to transform 5 points on the cross in the center of block
      let center := convert ecx ecy
      let left := convert extents.llx ecy
      let right := convert extents.urx ecy
      let lower := convert ecx extents.lly
      let upper := convert ecx extents.ury
      -- construct 4 sub-blocks and try again
      let cll : OptCorners := ⟨corners.c0, left, center, lower⟩
      let cul : OptCorners := ⟨left, corners.c1, upper, center⟩
      let cur : OptCorners := ⟨center, upper, corners.c2, right⟩
      let clr : OptCorners := ⟨lower, center, right, corners.c3⟩
      1
      + (if cll.mixed then
          divideBorderBlock convert lim fuel half
            ⟨extents.llx, extents.lly, ecx, ecy⟩ cll
        else 0)
      + (if cul.mixed then
          divideBorderBlock convert lim fuel half
            ⟨extents.llx, ecy, ecx, extents.ury⟩ cul
        else 0)
      + (if cur.mixed then
          divideBorderBlock convert lim fuel half
            ⟨ecx, ecy, extents.urx, extents.ury⟩ cur
        else 0)
      + (if clr.mixed then
          divideBorderBlock convert lim fuel half
            ⟨ecx, extents.lly, extents.urx, ecy⟩ clr
        else 0)

/-! ## Updater thread wait logic (`generator.cpp`, `Generators::Detail::updater`) -/

/-- Outcome of one `update(resourceBackend_->load())` pass inside the
updater loop: success, the `Aborted` sentinel, or a `std::exception`. -/
inductive PassOutcome where
  | ok
  | aborted
  | failed
  deriving DecidableEq, Repr

/-- The sleep duration (seconds) chosen by one updater iteration
(`generator.cpp` lines 548-561): initialized to
`config_.resourceUpdatePeriod`; an `Aborted` pass leaves it unchanged; a
`std::exception` pass resets it to 5 seconds, but only when the period is
positive. -/
def updaterSleepSecs (period : ℤ) (outcome : PassOutcome) : ℤ :=
  match outcome with
  | .failed => if period > 0 then 5 else period
  | _ => period

/-- The kind of condition-variable wait performed at the end of one
updater iteration. -/
inductive WaitMode where
  | timed (secs : ℤ)
  | indefinite
  deriving DecidableEq, Repr

/-- The wait performed by the updater (`generator.cpp` lines 575-581):
`wait_for(lock, sleep, predicate)` when `resourceUpdatePeriod > 0`,
otherwise a plain predicated `wait(lock, predicate)`. -/
def updaterWaitMode (period : ℤ) (outcome : PassOutcome) : WaitMode :=
  if period > 0 then .timed (updaterSleepSecs period outcome) else .indefinite

/-- The condition-variable wait predicate (`generator.cpp` lines 568-573):
wake when the registry is shutting down (`!running_`) or an update was
requested (`updateRequest_`, atomically exchanged to `false`). -/
def wakePredicate (running updateRequest : Bool) : Bool :=
  !running || updateRequest

/-- Condition-variable semantics for the updater's wait: given a trace of
`(running_, updateRequest_)` states indexed by whole seconds, the wait has
returned by time `t` iff the predicate held at some instant `≤ t`, or — for
a timed wait only — the timeout `d` has elapsed. -/
def waitReturnedBy (w : WaitMode) (trace : ℕ → Bool × Bool) (t : ℕ) : Bool :=
  let signalled := (List.range (t + 1)).any
    (fun t' => wakePredicate (trace t').1 (trace t').2)
  match w with
  | .indefinite => signalled
  | .timed d => signalled || decide (d ≤ (t : ℤ))

/-! ## Generator registry (`generator.cpp`, `Generators::Detail`) -/

/-- `Resource::Id`: the (reference frame, group, id) triple. -/
structure ResourceId where
  rf : String
  group : String
  id : String
  deriving DecidableEq, Repr

/-- `Resource::Generator::Type`. -/
inductive GenType where
  | tms
  | surface
  | geodata
  deriving DecidableEq, Repr

/-- The registry-visible projection of one generator held in `serving_`:
its resource id, generator type, per-generator `ready_` flag and
`readySince_` timestamp (µs since epoch). -/
structure GenRec where
  rid : ResourceId
  gtype : GenType
  gready : Bool
  readySince : ℕ
  deriving DecidableEq, Repr

/-- Registry state visible to the `Generators::Detail` query methods: the
registry-wide `ready_` flag, the multi-indexed serving set and the
`lastUpdate_` timestamp.  `serving_` is modelled as the insertion
sequence of generators: the Boost.MultiIndex ordered indices sort by
their key and keep elements with equivalent keys in insertion order, so
an `equal_range` traversal for a fixed key enumerates exactly the
key-matching elements in insertion order — a `List.filter` over the
insertion sequence. -/
structure DetailState where
  ready : Bool
  serving : List GenRec
  lastUpdate : ℕ
  deriving DecidableEq, Repr

/-- Errors thrown by the registry query methods. -/
inductive SvcError where
  | unavailable
  | unknownGenerator
  deriving DecidableEq, Repr

/-- `Generators::Detail::checkReady` (`generator.cpp` lines 487-491):
throw `Unavailable("Server not ready.")` until `ready_` flips. -/
def detailCheckReady (st : DetailState) : Except SvcError Unit :=
  if st.ready then .ok () else .error .unavailable

/-- Lookup in the unique `ResourceIdIdx` index (`idx.find(resourceId)`). -/
def findById (st : DetailState) (rid : ResourceId) : Option GenRec :=
  st.serving.find? (fun g => g.rid = rid)

/-- `Generators::Detail::generator` (`generator.cpp` lines 890-917):
`checkReady`, find by resource id, return nothing when missing or when the
declared type does not match. -/
def detailGenerator (st : DetailState) (generatorType : GenType)
    (resourceId : ResourceId) : Except SvcError (Option GenRec) := do
  _ ← detailCheckReady st
  match findById st resourceId with
  | none => .ok none
  | some g => if g.gtype = generatorType then .ok (some g) else .ok none

/-- `Generators::Detail::referenceFrame` (`generator.cpp` lines 868-888):
`checkReady`, then the ready generators of the `ReferenceFrameIdx`
equal-range. -/
def detailReferenceFrame (st : DetailState) (referenceFrame : String) :
    Except SvcError (List GenRec) := do
  _ ← detailCheckReady st
  .ok ((st.serving.filter (fun g => g.rid.rf = referenceFrame)).filter
        (fun g => g.gready))

/-- The consecutive-duplicate suppression of
`Generators::Detail::listGroups` (`generator.cpp` lines 944-953): push a
group only when it differs from the previously pushed one; `prev` starts
as the empty string. -/
def dedupConsecutive (prev : String) : List String → List String
  | [] => []
  | g :: gs =>
    if g = prev then dedupConsecutive prev gs
    else g :: dedupConsecutive g gs

/-- The `TypeIdx` equal-range of `serving_` for a `(referenceFrame, type)`
key, in index order (insertion order among equivalent keys). -/
def typeRange (st : DetailState) (referenceFrame : String) (t : GenType) :
    List GenRec :=
  st.serving.filter (fun g => g.rid.rf = referenceFrame ∧ g.gtype = t)

/-- `Generators::Detail::listGroups` (`generator.cpp` lines 932-957):
`checkReady`, then walk the `TypeIdx` equal-range collecting group names,
skipping a group equal to the previous one. -/
def detailListGroups (st : DetailState) (referenceFrame : String)
    (t : GenType) : Except SvcError (List String) := do
  _ ← detailCheckReady st
  .ok (dedupConsecutive "" ((typeRange st referenceFrame t).map
        (fun g => g.rid.group)))

/-- `Generators::Detail::listIds` (`generator.cpp` lines 959-980):
`checkReady`, then the ids of the `GroupIdx` equal-range. -/
def detailListIds (st : DetailState) (referenceFrame : String) (t : GenType)
    (group : String) : Except SvcError (List String) := do
  _ ← detailCheckReady st
  .ok ((st.serving.filter (fun g =>
          g.rid.rf = referenceFrame ∧ g.gtype = t ∧ g.rid.group = group)).map
        (fun g => g.rid.id))

/-- `Generators::Detail::has` (`generator.cpp` lines 1038-1044): a plain
membership test on the `ResourceIdIdx` index — no `checkReady`. -/
def detailHas (st : DetailState) (resourceId : ResourceId) : Bool :=
  (findById st resourceId).isSome

/-- `Generators::Detail::isReady` (`generator.cpp` lines 1051-1058): the
generator's own ready flag, `false` when absent — no `checkReady`. -/
def detailIsReady (st : DetailState) (resourceId : ResourceId) : Bool :=
  match findById st resourceId with
  | none => false
  | some g => g.gready

/-- `Generator::url` (`generator.cpp` lines 288-293), abstracted to the
path components the id contributes. -/
def urlOf (g : GenRec) : String :=
  "/" ++ g.rid.rf ++ "/" ++ g.rid.group ++ "/" ++ g.rid.id

/-- `Generators::Detail::url` (`generator.cpp` lines 1065-1075): throws
`UnknownGenerator` for a missing id, otherwise the generator's URL — no
`checkReady`. -/
def detailUrl (st : DetailState) (resourceId : ResourceId) :
    Except SvcError String :=
  match findById st resourceId with
  | none => .error .unknownGenerator
  | some g => .ok (urlOf g)

/-- `Generators::Detail::updatedSince(resourceId, timestamp, nothrow)`
(`generator.cpp` lines 1082-1095): `readySince_ > timestamp` of the found
generator; a missing id yields `false` (nothrow) or `UnknownGenerator` —
no `checkReady`. -/
def detailUpdatedSinceId (st : DetailState) (resourceId : ResourceId)
    (timestamp : ℕ) (nothrow : Bool) : Except SvcError Bool :=
  match findById st resourceId with
  | none =>
    if nothrow then .ok false else .error .unknownGenerator
  | some g => .ok (decide (g.readySince > timestamp))

/-- `Generators::Detail::updatedSince(timestamp)` (`generator.cpp` lines
1028-1031): `lastUpdate_ > timestamp` — no `checkReady`. -/
def detailUpdatedSince (st : DetailState) (timestamp : ℕ) : Bool :=
  decide (st.lastUpdate > timestamp)

/-! ## Generator reconstruction and the freeze policy
(`generator.cpp`, `Generator::Generator` and `Generators::Detail::update`) -/

/-- The `Changed` taxonomy of resource-definition comparison. -/
inductive Changed where
  | no
  | safely
  | withRevisionBump
  | yes
  deriving DecidableEq, Repr

/-- The slice of a `Resource` the constructor logic manipulates: the
revision counter, the (driver-specific) definition blob — abstracted to an
opaque tag — and the file-class settings, likewise abstracted. -/
structure ResourceModel where
  revision : ℕ
  definition : ℕ
  fileClassSettings : ℕ
  deriving DecidableEq, Repr

/-- Result of the reconstruction: the effective `resource_`,
`savedResource_`, the `changeEnforced_` flag and what, if anything, was
re-saved to `resource.json` during construction. -/
structure CtorOut where
  resource : ResourceModel
  savedResource : ResourceModel
  changeEnforced : Bool
  savedToDisk : Option ResourceModel
  deriving DecidableEq, Repr

/-- Embedding of the reopen branch of `Generator::Generator`
(`generator.cpp` lines 124-178): merge revisions to the maximum of both,
then dispatch on `savedResource_.changed(resource_)` (passed in as `chg`,
computed by the driver-specific definition code): `withRevisionBump` bumps
the revision, marks `changeEnforced_` and falls through to the re-save;
`no`/`safely` re-save the incoming resource; `yes` keeps the stored
definition (with the incoming file-class settings forced) when the type is
frozen, and otherwise bumps the revision and marks `changeEnforced_`. -/
def generatorReopen (freeze : Bool) (incoming stored : ResourceModel)
    (chg : Changed) : CtorOut :=
  let merged := max incoming.revision stored.revision
  let resource := { incoming with revision := merged }
  let savedResource := { stored with revision := merged }
  match chg with
  | .withRevisionBump =>
    let r := { resource with revision := merged + 1 }
    ⟨r, r, true, some r⟩
  | .no => ⟨resource, resource, false, some resource⟩
  | .safely => ⟨resource, resource, false, some resource⟩
  | .yes =>
    if freeze then
      -- different setup, use stored definition; force received file class
      -- settings even for saved resource
      ⟨{ savedResource with fileClassSettings := incoming.fileClassSettings }
       , savedResource, false, none⟩
    else
      -- changed but not freezing: bump revision
      ⟨{ resource with revision := merged + 1 }, savedResource, true, none⟩

/-- The action the updater's merge walk takes for a resource present on
both sides. -/
inductive UpdateAction where
  | keep
  | scheduleReplace
  deriving DecidableEq, Repr

/-- Embedding of the both-sides case of `Generators::Detail::update`
(`generator.cpp` lines 788-806): `no` keeps the generator; `yes` schedules
a replacement only for non-frozen types; `safely` and `withRevisionBump`
always schedule a replacement. -/
def updateExistingAction (chg : Changed) (freezes : Bool) : UpdateAction :=
  match chg with
  | .no => .keep
  | .yes => if freezes then .keep else .scheduleReplace
  | .safely => .scheduleReplace
  | .withRevisionBump => .scheduleReplace

/-! ## Preparation worker (`generator.cpp`, `Generators::Detail::prepare`) -/

/-- A generator as seen by the preparation machinery: its identity (also
standing for its resource id) and the optional generator it replaces. -/
structure PrepGen where
  gid : ℕ
  replaceOf : Option ℕ
  deriving DecidableEq, Repr

/-- The slice of `Generators::Detail` state touched by `prepare`: the
serving set (generator identities; the `ResourceIdIdx` index is unique, so
a finite set), the in-flight `preparing_` counter and the error reports
sent to `ResourceBackend::error`. -/
structure PrepRegistry where
  serving : Finset ℕ
  preparing : ℤ
  errors : List (ℕ × String)
  deriving DecidableEq

/-- `Generators::Detail::prepare` before posting the task
(`generator.cpp` line 606): increment `preparing_`. -/
def prepareEnqueue (st : PrepRegistry) : PrepRegistry :=
  { st with preparing := st.preparing + 1 }

/-- The posted preparation task (`generator.cpp` lines 608-628).  The
`generator->prepare(*arsenal_)` call (including the `replace` swap) is
abstracted as its outcome: on success the replacement, when present, takes
its predecessor's slot; on a thrown exception the error is reported to the
`ResourceBackend` and the generator is erased from the serving set.  The
`preparing_` counter is decremented after the try/catch in both cases. -/
def prepareTaskRun (st : PrepRegistry) (g : PrepGen)
    (outcome : Except String Unit) : PrepRegistry :=
  let st1 :=
    match outcome with
    | .ok _ =>
      match g.replaceOf with
      | some original =>
        { st with serving := insert g.gid (st.serving.erase original) }
      | none => st
    | .error msg =>
      { st with
        errors := st.errors ++ [(g.gid, msg)]
        serving := st.serving.erase g.gid }
  { st1 with preparing := st1.preparing - 1 }

/-! ## DEM → metatile synthesis (`generator/metatile.cpp`, `metatileFromDem`) -/

/-- `NB: Do Not Change!` — `metatileSamplesPerTileBinLog` from
`metatile.cpp` line 44. -/
def metatileSamplesPerTileBinLog : ℕ := 3

/-- `metatileSamplesPerTile = 1 << metatileSamplesPerTileBinLog`. -/
def metatileSamplesPerTile : ℕ := 2 ^ metatileSamplesPerTileBinLog

/-- `vts::TileId`: (lod, x, y). -/
structure TileId where
  lod : ℕ
  x : ℕ
  y : ℕ
  deriving DecidableEq, Repr

/-- `vts::children(nodeId)`: the four children of a tile at the next
LOD. -/
def childrenOf (t : TileId) : List TileId :=
  [⟨t.lod + 1, 2 * t.x, 2 * t.y⟩, ⟨t.lod + 1, 2 * t.x + 1, 2 * t.y⟩
   , ⟨t.lod + 1, 2 * t.x, 2 * t.y + 1⟩, ⟨t.lod + 1, 2 * t.x + 1, 2 * t.y + 1⟩]

/-- The tile-index flag bits consumed by `ti2metaFlags`
(`vts::TileIndex::Flag::mesh` and `::navtile`). -/
structure TiFlags where
  mesh : Bool
  navtile : Bool
  deriving DecidableEq, Repr

/-- A 3D point with rational coordinates (`math::Point3`). -/
structure P3 where
  x : ℚ
  y : ℚ
  z : ℚ
  deriving DecidableEq, Repr

/-- `math::Extents3` (3D axis-aligned box). -/
structure Extents3 where
  llx : ℚ
  lly : ℚ
  llz : ℚ
  urx : ℚ
  ury : ℚ
  urz : ℚ
  deriving DecidableEq, Repr

/-- `math::Extents3(math::InvalidExtents{})`: lower corner at `+max`,
upper corner at `lowest`, so the first update snaps to the point. -/
def extents3Invalid : Extents3 :=
  ⟨dblMax, dblMax, dblMax, dblLowest, dblLowest, dblLowest⟩

/-- `math::update(extents, point)`: expand the box by one point. -/
def extents3Update (e : Extents3) (p : P3) : Extents3 :=
  ⟨min e.llx p.x, min e.lly p.y, min e.llz p.z
   , max e.urx p.x, max e.ury p.y, max e.urz p.z⟩

/-- `vts::GeomExtents`: a z-range in SDS space plus a surrogate height.
The `vts::MetaNode` type itself lives in vts-libs (consumed as an opaque
codec); only the fields this translation reads and writes are modelled. -/
structure GeomExtents where
  zmin : ℚ
  zmax : ℚ
  surrogate : ℚ
  deriving DecidableEq, Repr

/-- The stand-in for the surrogate value of a default-constructed
`vts::GeomExtents` (an invalid-height marker in vts-libs). -/
def geomInvalidHeight : ℚ := dblMax

/-- A default-constructed (`= {}`) `vts::GeomExtents`: empty z-range,
invalid surrogate.  `node.geomExtents = {}` in the `triangleCount == 0`
branch resets to this value. -/
def geomExtentsEmpty : GeomExtents := ⟨dblMax, dblLowest, geomInvalidHeight⟩

/-- `vts::update(geomExtents, other)`: unite the z-ranges (the surrogate
is not touched by the extents update). -/
def geomExtentsUpdate (g : GeomExtents) (zmin zmax : ℚ) : GeomExtents :=
  ⟨min g.zmin zmin, max g.zmax zmax, g.surrogate⟩

/-- One (avg, min, max) height triple of the `valueMinMax`-warped DEM
raster (`cv::Vec3d`). -/
structure DemValue where
  avg : ℚ
  vmin : ℚ
  vmax : ℚ
  deriving DecidableEq, Repr

/-- `validSample` (`metatile.cpp` lines 94-97): `value >= -1e6`. -/
def validSample (value : ℚ) : Bool :=
  value ≥ -1000000

/-- One block of the metatile decomposition (`MetatileBlock` from
`support/metatile.hpp`, reduced to the fields `metatileFromDem` reads):
the tile-range view, the SDS extents and whether the common ancestor
reference-frame node is productive. -/
structure MetatileBlock where
  viewLLx : ℕ
  viewLLy : ℕ
  viewURx : ℕ
  viewURy : ℕ
  extents : Extents2
  productive : Bool
  deriving DecidableEq, Repr

/-- `vts::tileRangesSize(view).width`. -/
def MetatileBlock.sizeW (b : MetatileBlock) : ℕ := b.viewURx - b.viewLLx + 1

/-- `vts::tileRangesSize(view).height`. -/
def MetatileBlock.sizeH (b : MetatileBlock) : ℕ := b.viewURy - b.viewLLy + 1

/-- The external collaborators `metatileFromDem` consumes, abstracted at
the interfaces the C++ calls them through: the tile index (`get` and
`validSubtree`), reference-frame node validity (`vts::NodeInfo(rf,
child).valid()`), the warped DEM raster per block (the result of
`arsenal.warper.warp` with the `valueMinMax` operation, indexed as
column `i`, row `j`), the combined shift mask (`ShiftMask`), the three
per-block coordinate converters (`sds2phys`, `sds2nav`, `sdsg2sdsr`; of
the latter two only the height component is read), the `quadArea`
helper from `support/mesh.hpp`, `vr::normalizedExtents`, the resource's
credit list and the optional display-size override. -/
structure SynthEnv where
  tiFlags : TileId → TiFlags
  validSubtree : TileId → Bool
  nodeValid : TileId → Bool
  dem : MetatileBlock → ℕ → ℕ → DemValue
  mask : MetatileBlock → ℕ → ℕ → Bool
  conv : MetatileBlock → P3 → P3
  navConvZ : MetatileBlock → P3 → ℚ
  geConvZ : MetatileBlock → P3 → ℚ
  quadArea : Option P3 → Option P3 → Option P3 → Option P3 → ℚ × ℕ
  normalizedExtents : Extents3 → Extents3
  credits : List ℕ
  displaySize : Option ℤ

/-- The valid 8-neighborhood of grid point `(i, j)` used by
`ValueMinMaxSampler::operator()` (`metatile.cpp` lines 117-136): offsets
`(ii, jj) ≠ (0, 0)` within the raster bounds whose average component is a
valid sample. -/
def vmmNeighbors (env : SynthEnv) (block : MetatileBlock)
    (cols rows : ℕ) (i j : ℕ) : List DemValue :=
  ([-1, 0, 1] : List ℤ).flatMap fun jj =>
    ([-1, 0, 1] : List ℤ).flatMap fun ii =>
      if ii = 0 ∧ jj = 0 then []
      else
        let x : ℤ := (i : ℤ) + ii
        let y : ℤ := (j : ℤ) + jj
        if 0 ≤ x ∧ x < (cols : ℤ) ∧ 0 ≤ y ∧ y < (rows : ℤ) then
          let v := env.dem block x.toNat y.toNat
          if validSample v.avg then [v] else []
        else []

/-- `ValueMinMaxSampler::operator()(i, j)` (`metatile.cpp` lines
105-142): the exact raster value when its average is valid, otherwise the
(mean-of-averages, min-of-mins, max-of-maxes) over the valid neighbors,
or nothing when no neighbor is valid. -/
def valueMinMaxSample (env : SynthEnv) (block : MetatileBlock)
    (cols rows : ℕ) (i j : ℕ) : Option DemValue :=
  let v := env.dem block i j
  if validSample v.avg then some v
  else
    let ns := vmmNeighbors env block cols rows i j
    if ns.isEmpty then none
    else
      some ⟨(ns.map (fun n => n.avg)).sum / ns.length
            , ns.foldl (fun a n => min a n.vmin) dblMax
            , ns.foldl (fun a n => max a n.vmax) dblLowest⟩

/-- One valid grid `Sample` (`metatile.cpp` lines 51-77): the three
physical-space points for (avg, min, max), the navigation-space height
range of (min, max) and the SDS geom extents with surrogate. -/
structure Sample where
  value : P3
  minP : P3
  maxP : P3
  hrMin : ℚ
  hrMax : ℚ
  geZMin : ℚ
  geZMax : ℚ
  geSurrogate : ℚ
  deriving DecidableEq, Repr

/-- The `Sample` constructor (`metatile.cpp` lines 63-76). -/
def mkSample (conv : P3 → P3) (navConvZ geConvZ : P3 → ℚ)
    (x y : ℚ) (v : DemValue) : Sample :=
  { value := conv ⟨x, y, v.avg⟩
    minP := conv ⟨x, y, v.vmin⟩
    maxP := conv ⟨x, y, v.vmax⟩
    hrMin := navConvZ ⟨x, y, v.vmin⟩
    hrMax := navConvZ ⟨x, y, v.vmax⟩
    geZMin := geConvZ ⟨x, y, v.vmin⟩
    geZMax := geConvZ ⟨x, y, v.vmax⟩
    geSurrogate := geConvZ ⟨x, y, v.avg⟩ }

/-- The filled sample grid of a productive block (`metatile.cpp` lines
265-300), expressed per cell: the cell is valid iff the combined mask
admits it and the value-min-max sampler yields a value; the grid point's
SDS coordinates are `x = extents.ll(0) + i·gts.width`,
`y = extents.ur(1) - j·gts.height`. -/
def gridSample (env : SynthEnv) (block : MetatileBlock) (i j : ℕ) :
    Option Sample :=
  let cols := block.sizeW * metatileSamplesPerTile + 1
  let rows := block.sizeH * metatileSamplesPerTile + 1
  let esW := block.extents.urx - block.extents.llx
  let esH := block.extents.ury - block.extents.lly
  let gtsW := esW / (metatileSamplesPerTile * block.sizeW)
  let gtsH := esH / (metatileSamplesPerTile * block.sizeH)
  if env.mask block i j then
    match valueMinMaxSample env block cols rows i j with
    | none => none
    | some v =>
      some (mkSample (env.conv block) (env.navConvZ block) (env.geConvZ block)
        (block.extents.llx + i * gtsW) (block.extents.ury - j * gtsH) v)
  else none

/-- `getValue` (`metatile.cpp` lines 84-92): the physical-space average
point of a valid sample. -/
def sampleValue (s : Option Sample) : Option P3 :=
  s.map (fun smp => smp.value)

/-- The per-tile accumulator of the metanode generation loop
(`metatile.cpp` lines 318-361): physical extents, geom extents, surrogate
height sum and count, quad area and triangle count, and the local
navigation-space height range (initially `HeightRange::emptyRange()`). -/
structure TileAcc where
  te : Extents3
  ge : GeomExtents
  hrMin : ℚ
  hrMax : ℚ
  area : ℚ
  triCnt : ℕ
  avgSum : ℚ
  avgCnt : ℕ
  deriving DecidableEq, Repr

/-- The accumulator at loop entry: invalid tile extents, the
default-constructed geom extents of a fresh `vts::MetaNode`, an empty
height range and zeroed sums. -/
def tileAccInit : TileAcc :=
  ⟨extents3Invalid, geomExtentsEmpty, dblMax, dblLowest, 0, 0, 0, 0⟩

/-- One iteration of the per-tile vertex loop (`metatile.cpp` lines
327-361) at offsets `p = (jj, ii)` of tile `(i, j)`: a valid sample
expands the tile extents (by both its min and max point), the geom
extents and the surrogate sum; interior offsets of a geometric tile add
`quadArea` of the quad at `(xx-1..xx, yy-1..yy)`; a valid sample of a
navtile-bearing tile extends the height range. -/
def tileStep (env : SynthEnv) (block : MetatileBlock)
    (geometry navtile : Bool) (i j : ℕ) (acc : TileAcc) (p : ℕ × ℕ) :
    TileAcc :=
  let xx := i * metatileSamplesPerTile + p.2
  let yy := j * metatileSamplesPerTile + p.1
  let s := gridSample env block xx yy
  let acc1 :=
    match s with
    | some smp =>
      { acc with
        te := extents3Update (extents3Update acc.te smp.minP) smp.maxP
        ge := geomExtentsUpdate acc.ge smp.geZMin smp.geZMax
        avgSum := acc.avgSum + smp.geSurrogate
        avgCnt := acc.avgCnt + 1 }
    | none => acc
  let acc2 :=
    if geometry ∧ 0 < p.2 ∧ 0 < p.1 then
      let qa := env.quadArea (sampleValue (gridSample env block (xx - 1) (yy - 1)))
        (sampleValue s) (sampleValue (gridSample env block (xx - 1) yy))
        (sampleValue (gridSample env block xx (yy - 1)))
      { acc1 with area := acc1.area + qa.1, triCnt := acc1.triCnt + qa.2 }
    else acc1
  match s with
  | some smp =>
    if navtile then
      { acc2 with hrMin := min acc2.hrMin smp.hrMin
                  , hrMax := max acc2.hrMax smp.hrMax }
    else acc2
  | none => acc2

/-- The modelled fields of a `vts::MetaNode`: content flags, per-child
validity bits, physical extents, the (integral) stored height range, geom
extents, display-size/texel-size data and credits.  The texel size is
stored squared because `std::sqrt` has no rational counterpart; the
squared value determines it. -/
structure MetaNode where
  geometry : Bool
  navtile : Bool
  childFlags : List (TileId × Bool)
  extents : Extents3
  heightMin : ℤ
  heightMax : ℤ
  geomExtents : GeomExtents
  applyTexelSize : Bool
  applyDisplaySize : Bool
  displaySize : ℤ
  texelSizeSq : ℚ
  credits : List ℕ
  deriving DecidableEq, Repr

/-- A default-constructed `vts::MetaNode` (before `node.flags(...)`), as
far as the modelled fields go. -/
def metaNodeDefault : MetaNode :=
  { geometry := false
    navtile := false
    childFlags := []
    extents := extents3Invalid
    heightMin := 0
    heightMax := 0
    geomExtents := geomExtentsEmpty
    applyTexelSize := false
    applyDisplaySize := false
    displaySize := 0
    texelSizeSq := 0
    credits := [] }

/-- `ti2metaFlags` (`metatile.cpp` lines 151-162): `geometryPresent` iff
the mesh bit, `navtilePresent` iff the navtile bit (the child bits are
subsequently overwritten one by one by `setChildren`). -/
def ti2metaFlags (f : TiFlags) : Bool × Bool :=
  (f.mesh, f.navtile)

/-- The `setChildren` lambda of `metatileFromDem` (`metatile.cpp` lines
186-205): for each of the four children, the child bit is the tile
index's `validSubtree` combined with the validity of the owning
reference-frame node. -/
def setChildrenList (env : SynthEnv) (nodeId : TileId) :
    List (TileId × Bool) :=
  (childrenOf nodeId).map
    (fun child => (child, env.validSubtree child && env.nodeValid child))

/-- `vr::BoundLayer::tileArea()`: the area in pixels of one bound-layer
tile (256 × 256). -/
def boundLayerTileArea : ℚ := 65536

/-- The `if (geometry)` tail of the metanode generation (`metatile.cpp`
lines 384-419): set credits, then either apply the display-size override
or the texel size computed from the accumulated quad area and the
triangle-count-scaled texture area, and finally set the surrogate to the
mean accumulated height when any sample contributed. -/
def applyGeometryInfo (env : SynthEnv) (acc : TileAcc) (node : MetaNode) :
    MetaNode :=
  let node1 := { node with credits := env.credits }
  let node2 :=
    match env.displaySize with
    | some ds => { node1 with applyDisplaySize := true, displaySize := ds }
    | none =>
      let textureArea : ℚ :=
        ((acc.triCnt : ℚ) * boundLayerTileArea)
          / (2 * ((metatileSamplesPerTile : ℚ) * (metatileSamplesPerTile : ℚ)))
      { node1 with applyTexelSize := true
                   , texelSizeSq := acc.area / textureArea }
  if acc.avgCnt ≠ 0 then
    { node2 with geomExtents :=
        { node2.geomExtents with surrogate := acc.avgSum / acc.avgCnt } }
  else node2

/-- The metanode of tile `(i, j)` of a productive block (`metatile.cpp`
lines 306-423): flags from the tile index, the vertex-loop accumulation,
children from tile index and reference frame, normalized extents, the
floor/ceil height range, then — when no triangle contributed — the reset
of the content flags and geom extents, and finally the geometry tail.
The C++ reset also re-assigns the local `heightRange` variable to the
empty range, but that variable is never read afterwards; the node keeps
the height-range fields assigned just before the reset. -/
def mkProductiveNode (env : SynthEnv) (tileId : TileId)
    (block : MetatileBlock) (i j : ℕ) : MetaNode :=
  let nodeId : TileId := ⟨tileId.lod, block.viewLLx + i, block.viewLLy + j⟩
  let f := ti2metaFlags (env.tiFlags nodeId)
  let geometry := f.1
  let navtile := f.2
  let sampleOffsets :=
    (List.range (metatileSamplesPerTile + 1)).flatMap fun jj =>
      (List.range (metatileSamplesPerTile + 1)).map fun ii => (jj, ii)
  let acc := sampleOffsets.foldl (tileStep env block geometry navtile i j)
    tileAccInit
  let node0 : MetaNode :=
    { metaNodeDefault with
      geometry := geometry
      navtile := navtile
      geomExtents := acc.ge
      childFlags := setChildrenList env nodeId
      extents := env.normalizedExtents acc.te
      heightMin := ⌊acc.hrMin⌋
      heightMax := ⌈acc.hrMax⌉ }
  let node1 :=
    if acc.triCnt = 0 then
      { node0 with geometry := false, navtile := false
                   , geomExtents := geomExtentsEmpty }
    else node0
  let geometryAfterReset := geometry && !decide (acc.triCnt = 0)
  if geometryAfterReset then applyGeometryInfo env acc node1 else node1

/-- The metanode of one tile of an unproductive block
(`generateUnproductiveNodes`, `metatile.cpp` lines 207-224): flags from
the tile index and children, nothing else. -/
def mkUnproductiveNode (env : SynthEnv) (nodeId : TileId) : MetaNode :=
  let f := ti2metaFlags (env.tiFlags nodeId)
  { metaNodeDefault with
    geometry := f.1
    navtile := f.2
    childFlags := setChildrenList env nodeId }

/-- The metanodes of one block, in store order (`metatile.cpp` lines
211-224 and 306-423): row-major over the block view, unproductive blocks
skip the sampling path. -/
def blockNodes (env : SynthEnv) (tileId : TileId) (block : MetatileBlock) :
    List (TileId × MetaNode) :=
  (List.range block.sizeH).flatMap fun j =>
    (List.range block.sizeW).map fun i =>
      let nodeId : TileId :=
        ⟨tileId.lod, block.viewLLx + i, block.viewLLy + j⟩
      (nodeId
       , if block.productive then mkProductiveNode env tileId block i j
         else mkUnproductiveNode env nodeId)

/-- The error raised by the embedded `metatileFromDem`. -/
inductive SynthError where
  | notFound
  deriving DecidableEq, Repr

/-- Embedding of `metatileFromDem` (`metatile.cpp` lines 166-428).  The
block decomposition `metatileBlocks(resource, tileId)` is computed by
support code outside this translation unit and is therefore taken as the
input `blocks`; an empty decomposition raises `NotFound` ("Metatile
completely outside of configured range."), otherwise every block
contributes its metanodes.  Sink cancellation and warp failures are
outside the modelled behavior (the warp is a total function in
`SynthEnv`). -/
def metatileFromDem (env : SynthEnv) (tileId : TileId)
    (blocks : List MetatileBlock) : Except SynthError (List (TileId × MetaNode)) :=
  if blocks.isEmpty then .error .notFound
  else .ok (blocks.flatMap (blockNodes env tileId))

/-! ## Concrete test fixtures used by the witnesses and counterexamples -/

/-- A concrete synthesis environment: a constant valid DEM value
(avg 100, min 90, max 110), identity converters, unmasked grid, tile
index flags `navtile` only (no mesh), `validSubtree` on even x,
reference-frame node validity on even y. -/
def env1 : SynthEnv :=
  { tiFlags := fun _ => ⟨false, true⟩
    validSubtree := fun t => decide (t.x % 2 = 0)
    nodeValid := fun t => decide (t.y % 2 = 0)
    dem := fun _ _ _ => ⟨100, 90, 110⟩
    mask := fun _ _ _ => true
    conv := fun _ p => p
    navConvZ := fun _ p => p.z
    geConvZ := fun _ p => p.z
    quadArea := fun _ _ _ _ => (0, 0)
    normalizedExtents := fun e => e
    credits := []
    displaySize := none }

/-- A single-tile productive block at view (2,3)-(2,3) over SDS extents
(0,0)-(8,8). -/
def block1 : MetatileBlock := ⟨2, 3, 2, 3, ⟨0, 0, 8, 8⟩, true⟩

/-- The metatile id for the `block1` fixture. -/
def tid1 : TileId := ⟨5, 16, 24⟩

/-- A single-tile unproductive block at view (1,1)-(1,1). -/
def ublock4 : MetatileBlock := ⟨1, 1, 1, 1, ⟨0, 0, 1, 1⟩, false⟩

/-- The metatile id for the `ublock4` fixture. -/
def tid4 : TileId := ⟨4, 0, 0⟩

/-- The metanode list produced for the `ublock4` fixture. -/
def ns4 : List (TileId × MetaNode) := blockNodes env1 tid4 ublock4

/-- The single metanode entry of `ns4`. -/
def p4 : TileId × MetaNode := (⟨4, 1, 1⟩, mkUnproductiveNode env1 ⟨4, 1, 1⟩)

/-- A child-validity entry of `p4`: child (5,2,2) with even x and even y
is valid in both the tile index and the reference frame. -/
def q4 : TileId × Bool := (⟨5, 2, 2⟩, true)

/-- A registry resource id fixture. -/
def ridA : ResourceId := ⟨"melown2015", "grp", "dem1"⟩

/-- A ready generator fixture under `ridA`. -/
def genA : GenRec := ⟨ridA, .tms, true, 42⟩

/-- A registry state before the first successful updater pass
(`ready_ = false`) that nevertheless holds a generator. -/
def stNotReady : DetailState := ⟨false, [genA], 7⟩

/-- Generator of group "a" (first insertion). -/
def genGroupA1 : GenRec := ⟨⟨"rf", "a", "x1"⟩, .tms, true, 0⟩

/-- Generator of group "b" (second insertion). -/
def genGroupB : GenRec := ⟨⟨"rf", "b", "y1"⟩, .tms, true, 0⟩

/-- A second generator of group "a" (third insertion): same
`(referenceFrame, type)` key as the other two, so the `TypeIdx`
equal-range enumerates the three in insertion order a, b, a. -/
def genGroupA2 : GenRec := ⟨⟨"rf", "a", "x2"⟩, .tms, true, 0⟩

/-- A ready registry whose (rf, tms) equal-range interleaves the groups
as a, b, a. -/
def stInterleaved : DetailState := ⟨true, [genGroupA1, genGroupB, genGroupA2], 0⟩

/-- A ready registry whose (rf, tms) equal-range groups are contiguous:
a, a, b. -/
def stGrouped : DetailState := ⟨true, [genGroupA1, genGroupA2, genGroupB], 0⟩

/-- The concatenation of group runs: each `(group, count)` run contributes
`count` consecutive copies of `group`. -/
def joinRuns (runs : List (String × ℕ)) : List String :=
  runs.flatMap (fun r => List.replicate r.2 r.1)


/-! ## Theorems -/

set_option maxRecDepth 40000

/-- Claim C5: `detectType` with no forced type returns ophoto for every
dataset with band count ≥ 3, ophoto for a 1-band Byte dataset, dem for
every other 1-band dataset, and throws for every other band count; a
forced type is returned unconditionally. -/
theorem detectType_classification (bands : ℕ) (dt : GdalDataType) (t : DatasetType) :
    (detectType bands dt (some t) = .ok t)
    ∧ (3 ≤ bands → detectType bands dt none = .ok .ophoto)
    ∧ (detectType 1 .byte none = .ok .ophoto)
    ∧ (dt ≠ .byte → detectType 1 dt none = .ok .dem)
    ∧ (bands < 3 → bands ≠ 1 →
        detectType bands dt none = .error (.unsupportedBandCount bands)) := by
  refine ⟨rfl, ?_, by decide, ?_, ?_⟩
  · intro h
    simp [detectType, h]
  · intro h
    simp [detectType, h]
  · intro h1 h2
    simp [detectType, h2]
    omega

theorem detectType_classification_witness :
    (detectType 3 .uint16 none = .ok .ophoto)
    ∧ (detectType 1 .float32 none = .ok .dem)
    ∧ (detectType 1 .byte none = .ok .ophoto)
    ∧ (detectType 2 .byte none = .error (.unsupportedBandCount 2))
    ∧ (detectType 7 .byte (some .dem) = .ok .dem) :=
  ⟨(detectType_classification 3 .uint16 .dem).2.1 (by decide)
   , (detectType_classification 1 .float32 .dem).2.2.2.1 (by decide)
   , (detectType_classification 1 .byte .dem).2.2.1
   , (detectType_classification 2 .byte .dem).2.2.2.2 (by decide) (by decide)
   , (detectType_classification 7 .byte .dem).1⟩

/-- Claim C3: reconstructing a generator over a stored definition whose
change classification is `Changed::yes` keeps the stored definition
(applying only the incoming file-class settings) without a revision bump
when the type is frozen, and bumps the revision and uses the new
definition when it is not; correspondingly the updater schedules a live
replacement for a `yes` change exactly when the type is not frozen. -/
theorem frozen_change_policy (incoming stored : ResourceModel) :
    ((generatorReopen true incoming stored .yes).resource
       = { stored with revision := max incoming.revision stored.revision
                       , fileClassSettings := incoming.fileClassSettings })
    ∧ ((generatorReopen true incoming stored .yes).resource.revision
       = max incoming.revision stored.revision)
    ∧ ((generatorReopen true incoming stored .yes).changeEnforced = false)
    ∧ ((generatorReopen true incoming stored .yes).savedToDisk = none)
    ∧ ((generatorReopen false incoming stored .yes).resource
       = { incoming with revision := max incoming.revision stored.revision + 1 })
    ∧ ((generatorReopen false incoming stored .yes).changeEnforced = true)
    ∧ (updateExistingAction .yes true = .keep)
    ∧ (updateExistingAction .yes false = .scheduleReplace) := by
  refine ⟨?_, ?_, rfl, rfl, rfl, rfl, rfl, rfl⟩ <;> simp [generatorReopen]

/-- Claim C8: when `generator->prepare(arsenal)` throws, the preparation
task removes the generator from the serving set and reports the error
message to the `ResourceBackend`; the in-flight `preparing_` counter is
decremented in both the success and the failure outcome. -/
theorem prepare_error_path (st : PrepRegistry) (g : PrepGen) (msg : String) :
    (g.gid ∉ (prepareTaskRun st g (.error msg)).serving)
    ∧ ((g.gid, msg) ∈ (prepareTaskRun st g (.error msg)).errors)
    ∧ ((prepareTaskRun st g (.error msg)).preparing = st.preparing - 1)
    ∧ ((prepareTaskRun st g (.ok ())).preparing = st.preparing - 1) := by
  refine ⟨?_, ?_, rfl, ?_⟩
  · simp [prepareTaskRun]
  · simp [prepareTaskRun]
  · cases h : g.replaceOf <;> simp [prepareTaskRun, h]

/-- Claim C10: `metatileFromDem` raises `NotFound` exactly when the block
decomposition of the requested tile id is empty (the metatile lies
completely outside the configured range); a non-empty decomposition
yields a metatile without error. -/
theorem metatileFromDem_range_check (env : SynthEnv) (tid : TileId)
    (blocks : List MetatileBlock) :
    (metatileFromDem env tid blocks = .error .notFound ↔ blocks = [])
    ∧ (blocks ≠ [] → ∃ ns, metatileFromDem env tid blocks = .ok ns) := by
  unfold metatileFromDem
  cases blocks <;> simp

theorem metatileFromDem_range_check_witness :
    ([block1] ≠ ([] : List MetatileBlock))
    ∧ (∃ ns, metatileFromDem env1 tid1 [block1] = .ok ns) :=
  ⟨by simp, (metatileFromDem_range_check env1 tid1 [block1]).2 (by simp)⟩

/-- Claim C2 counterexample: in a registry whose `ready_` flag is still
`false`, the methods `has`, `isReady`, `url`, `updatedSince(resourceId)`
and `updatedSince(timestamp)` all answer instead of throwing
`Unavailable`, refuting the claim that every externally reachable
registry method refuses service until the first updater pass. -/
theorem url_serves_before_first_update_pass :
    (stNotReady.ready = false)
    ∧ (detailUrl stNotReady ridA = .ok "/melown2015/grp/dem1")
    ∧ (detailHas stNotReady ridA = true)
    ∧ (detailIsReady stNotReady ridA = true)
    ∧ (detailUpdatedSinceId stNotReady ridA 7 false = .ok true)
    ∧ (detailUpdatedSince stNotReady 3 = true) := by
  refine ⟨rfl, ?_, ?_, ?_, ?_, ?_⟩ <;> decide

/-- Claim C2 amended: the query methods `generator`, `referenceFrame`,
`listGroups` and `listIds` consult the registry-wide `ready_` flag and
throw `Unavailable` until the first successful updater pass, while
`has`, `isReady`, `url` and both `updatedSince` overloads do not consult
`ready_` at all (their results are independent of the flag). -/
theorem registry_ready_gating (st : DetailState) (t : GenType)
    (rid : ResourceId) (rf group : String) (ts : ℕ) (nothrow b : Bool)
    (h : st.ready = false) :
    (detailGenerator st t rid = .error .unavailable)
    ∧ (detailReferenceFrame st rf = .error .unavailable)
    ∧ (detailListGroups st rf t = .error .unavailable)
    ∧ (detailListIds st rf t group = .error .unavailable)
    ∧ (detailHas { st with ready := b } rid = detailHas st rid)
    ∧ (detailIsReady { st with ready := b } rid = detailIsReady st rid)
    ∧ (detailUrl { st with ready := b } rid = detailUrl st rid)
    ∧ (detailUpdatedSinceId { st with ready := b } rid ts nothrow
        = detailUpdatedSinceId st rid ts nothrow)
    ∧ (detailUpdatedSince { st with ready := b } ts = detailUpdatedSince st ts) := by
  refine ⟨?_, ?_, ?_, ?_, rfl, rfl, rfl, rfl, rfl⟩ <;>
    simp [detailGenerator, detailReferenceFrame, detailListGroups, detailListIds
          , detailCheckReady, h, Bind.bind, Except.bind]

theorem registry_ready_gating_witness :
    (stNotReady.ready = false)
    ∧ (detailGenerator stNotReady .tms ridA = .error .unavailable)
    ∧ (detailListGroups stNotReady "melown2015" .tms = .error .unavailable) := by
  refine ⟨rfl, ?_, ?_⟩
  · exact (registry_ready_gating stNotReady .tms ridA "melown2015" "grp" 0 false true rfl).1
  · exact (registry_ready_gating stNotReady .tms ridA "melown2015" "grp" 0 false true rfl).2.2.1

/-- Claim C6 counterexample: a border block whose source-pixel width (4)
is below the limit `tileSize / (invGsdScale · tileFractionLimit)` (8)
but whose height (9) is not is still subdivided (the subdivision count
is 1, not 0), refuting the claim that the recursion stops as soon as the
span falls below the limit in either dimension. -/
theorem divideBorderBlock_recurses_below_width_limit :
    ((4 : ℚ) < (sourceBlockLimit ⟨256, 256⟩ 1 32).width)
    ∧ (divideBorderBlock (fun _ _ => none) (sourceBlockLimit ⟨256, 256⟩ 1 32) 2
        ⟨4, 9⟩ ⟨0, 0, 1, 1⟩ ⟨some (0, 0), none, none, none⟩ = 1) := by
  have hlim : sourceBlockLimit ⟨256, 256⟩ 1 32 = ⟨8, 8⟩ := by
    simp only [sourceBlockLimit, Size2f.mk.injEq]
    norm_num
  rw [hlim]
  constructor
  · norm_num
  · rw [show (2 : ℕ) = 1 + 1 from rfl]
    simp only [divideBorderBlock]
    norm_num [OptCorners.mixed, OptCorners.validCount
              , Extents2.centerX, Extents2.centerY]

/-- Claim C6 amended: the recursive subdivision of a border cell stops
on the size guard exactly when the subcell's source-pixel span falls
below the limit `tileSize / (invGsdScale · tileFractionLimit)` in both
dimensions (width and height). -/
theorem divideBorderBlock_stop_iff_both_below_limit
    (convert : ℚ → ℚ → OptPoint2) (tileSize : Size2f)
    (invGsdScale tileFractionLimit : ℚ) (fuel : ℕ) (blockPxSize : Size2f)
    (extents : Extents2) (corners : OptCorners) :
    divideBorderBlock convert (sourceBlockLimit tileSize invGsdScale tileFractionLimit)
        (fuel + 1) blockPxSize extents corners = 0
      ↔ (blockPxSize.width < (sourceBlockLimit tileSize invGsdScale tileFractionLimit).width
         ∧ blockPxSize.height < (sourceBlockLimit tileSize invGsdScale tileFractionLimit).height) := by
  rw [divideBorderBlock]
  split
  next h => simpa using h
  next h =>
    constructor
    · intro hc
      exfalso
      revert hc
      simp
    · intro hrhs
      exact absurd hrhs h

/-- Claim C7 counterexample: with `resourceUpdatePeriod = 2` (> 0) and a
failed load pass, the updater's timed wait uses the 5-second back-off,
so on a quiet trace it has not woken by the configured period (2 s),
refuting the claim that with a positive period the updater wakes after
at most the configured period. -/
theorem updater_failed_pass_waits_past_period :
    ((0 : ℤ) < 2)
    ∧ (updaterWaitMode 2 .failed = .timed 5)
    ∧ (waitReturnedBy (updaterWaitMode 2 .failed) (fun _ => (true, false)) 2 = false) := by
  refine ⟨by decide, by decide, by decide⟩

/-- Claim C7 amended: with `resourceUpdatePeriod ≤ 0` the updater's wait
is indefinite — it never returns on a timer, returning exactly when
`requestUpdate()` sets the update-request flag or shutdown clears
`running_`; with a positive period it wakes after at most the configured
period following a successful (or aborted) pass, and after at most
`max(period, 5)` seconds in every case (5 s back-off after a failed
pass). -/
theorem updater_wait_behavior (period : ℤ) (outcome : PassOutcome)
    (trace : ℕ → Bool × Bool) (t : ℕ) :
    (period ≤ 0 → updaterWaitMode period outcome = .indefinite)
    ∧ (period ≤ 0 → (∀ u, u ≤ t → wakePredicate (trace u).1 (trace u).2 = false) →
        waitReturnedBy (updaterWaitMode period outcome) trace t = false)
    ∧ (period ≤ 0 → wakePredicate (trace t).1 (trace t).2 = true →
        waitReturnedBy (updaterWaitMode period outcome) trace t = true)
    ∧ (0 < period → outcome ≠ .failed →
        waitReturnedBy (updaterWaitMode period outcome) trace period.toNat = true)
    ∧ (0 < period →
        waitReturnedBy (updaterWaitMode period outcome) trace (max period 5).toNat = true) := by
  refine ⟨?_, ?_, ?_, ?_, ?_⟩
  · intro hp
    simp [updaterWaitMode, not_lt.mpr hp]
  · intro hp hquiet
    simp only [updaterWaitMode, if_neg (not_lt.mpr hp), waitReturnedBy
               , List.any_eq_false, List.mem_range]
    intro u hu
    simp [hquiet u (by omega)]
  · intro hp hwake
    simp only [updaterWaitMode, if_neg (not_lt.mpr hp), waitReturnedBy
               , List.any_eq_true, List.mem_range]
    exact ⟨t, by omega, hwake⟩
  · intro hp hout
    have hsleep : updaterSleepSecs period outcome = period := by
      cases outcome with
      | ok => rfl
      | aborted => rfl
      | failed => exact absurd rfl hout
    simp only [updaterWaitMode, if_pos hp, hsleep, waitReturnedBy]
    have : decide (period ≤ (period.toNat : ℤ)) = true := by
      simp [Int.toNat_of_nonneg (le_of_lt hp)]
    simp [this]
  · intro hp
    simp only [updaterWaitMode, if_pos hp, waitReturnedBy]
    have hd : updaterSleepSecs period outcome ≤ ((max period 5).toNat : ℤ) := by
      have h5 : (0 : ℤ) ≤ max period 5 := le_trans (by norm_num) (le_max_right _ _)
      rw [Int.toNat_of_nonneg h5]
      cases outcome with
      | ok => exact le_max_left _ _
      | aborted => exact le_max_left _ _
      | failed => simp [updaterSleepSecs, if_pos hp, le_max_right]
    rw [Bool.or_eq_true]
    right
    exact decide_eq_true hd

/-- Witness for the amended claim C7 at concrete periods, outcomes and
traces. -/
theorem updater_wait_behavior_witness :
    (updaterWaitMode (-1) .ok = .indefinite)
    ∧ (waitReturnedBy (updaterWaitMode (-1) .ok) (fun _ => (true, false)) 3 = false)
    ∧ (waitReturnedBy (updaterWaitMode (-1) .ok) (fun _ => (true, true)) 3 = true)
    ∧ (waitReturnedBy (updaterWaitMode 7 .ok) (fun _ => (true, false)) 7 = true)
    ∧ (waitReturnedBy (updaterWaitMode 2 .failed) (fun _ => (true, false)) 5 = true) :=
  ⟨(updater_wait_behavior (-1) .ok (fun _ => (true, false)) 3).1 (by decide)
   , (updater_wait_behavior (-1) .ok (fun _ => (true, false)) 3).2.1 (by decide)
       (fun u _ => rfl)
   , (updater_wait_behavior (-1) .ok (fun _ => (true, true)) 3).2.2.1 (by decide) rfl
   , (updater_wait_behavior 7 .ok (fun _ => (true, false)) 0).2.2.2.1 (by decide)
       (by decide)
   , (updater_wait_behavior 2 .failed (fun _ => (true, false)) 0).2.2.2.2 (by decide)⟩

theorem childFlags_applyGeometryInfo (env : SynthEnv) (acc : TileAcc)
    (node : MetaNode) :
    (applyGeometryInfo env acc node).childFlags = node.childFlags := by
  unfold applyGeometryInfo
  cases h : env.displaySize <;> simp only [h] <;> split <;> rfl

theorem childFlags_mkProductiveNode (env : SynthEnv) (tid : TileId)
    (block : MetatileBlock) (i j : ℕ) :
    (mkProductiveNode env tid block i j).childFlags
      = setChildrenList env ⟨tid.lod, block.viewLLx + i, block.viewLLy + j⟩ := by
  simp only [mkProductiveNode]
  split
  · rw [childFlags_applyGeometryInfo]
    split <;> rfl
  · split <;> rfl

/-- Claim C4: every metanode stored by `metatileFromDem` — productive and
unproductive blocks alike — has each child-validity bit equal to
`tileIndex.validSubtree(child) && referenceFrameNode(child).valid`, so no
set child bit ever references a node outside the reference frame. -/
theorem metatile_child_flags (env : SynthEnv) (tid : TileId)
    (blocks : List MetatileBlock) (ns : List (TileId × MetaNode))
    (h : metatileFromDem env tid blocks = .ok ns) :
    ∀ p ∈ ns, ∀ q ∈ p.2.childFlags,
      q.2 = (env.validSubtree q.1 && env.nodeValid q.1) := by
  intro p hp q hq
  have hns : ns = blocks.flatMap (blockNodes env tid) := by
    unfold metatileFromDem at h
    split at h
    · simp at h
    · exact (Except.ok.inj h).symm
  subst hns
  rcases List.mem_flatMap.mp hp with ⟨b, hb, hpb⟩
  unfold blockNodes at hpb
  rcases List.mem_flatMap.mp hpb with ⟨j, hj, hpj⟩
  rcases List.mem_map.mp hpj with ⟨i, hi, hpi⟩
  have hcf : p.2.childFlags
      = setChildrenList env ⟨tid.lod, b.viewLLx + i, b.viewLLy + j⟩ := by
    rw [← hpi]
    cases hpr : b.productive with
    | true => simpa [hpr] using childFlags_mkProductiveNode env tid b i j
    | false => simp [hpr, mkUnproductiveNode]
  rw [hcf] at hq
  rcases List.mem_map.mp hq with ⟨c, hc, hqc⟩
  rw [← hqc]

theorem metatile_child_flags_witness :
    (metatileFromDem env1 tid4 [ublock4] = .ok ns4)
    ∧ (p4 ∈ ns4)
    ∧ (q4 ∈ p4.2.childFlags)
    ∧ (q4.2 = (env1.validSubtree q4.1 && env1.nodeValid q4.1)) :=
  ⟨by decide, by decide, by decide
   , metatile_child_flags env1 tid4 [ublock4] ns4 (by decide) p4 (by decide)
       q4 (by decide)⟩

/-- Claim C1, evaluated at the failing input: a productive single-tile
block whose tile index carries the navtile flag but no mesh flag (so
`triangleCount = 0`) over a DEM of valid samples with heights in
[90, 110].  The stored metanode has the geometry and navtile flags
cleared and the geom extents reset, as the claim states, but its stored
height range is the non-empty (90, 110): the `triangleCount == 0` branch
resets only the local `heightRange` variable after it was already copied
into the node, so the stored height range is not empty. -/
theorem metatile_zero_triangles_keeps_height_range :
    ((metatileFromDem env1 tid1 [block1]).map (List.map (fun q =>
        (q.2.geometry, q.2.navtile, q.2.geomExtents, q.2.heightMin, q.2.heightMax)))
      = .ok [(false, false, geomExtentsEmpty, 90, 110)])
    ∧ ((90 : ℤ) ≤ 110) :=
  ⟨by decide, by decide⟩

/-- Claim C9 counterexample: with three generators of one
`(referenceFrame, type)` key inserted in group order a, b, a, the
`TypeIdx` equal-range enumerates them in insertion order and
`listGroups` — which only skips a group equal to the immediately
preceding one — returns the duplicate-bearing list [a, b, a]. -/
theorem listGroups_interleaved_duplicates :
    (detailListGroups stInterleaved "rf" .tms = .ok ["a", "b", "a"])
    ∧ ¬ (["a", "b", "a"] : List String).Nodup :=
  ⟨by decide, by decide⟩

theorem dedupConsecutive_replicate (s : String) (m : ℕ) (rest : List String) :
    dedupConsecutive s (List.replicate m s ++ rest) = dedupConsecutive s rest := by
  induction m with
  | zero => rfl
  | succ n ih => simp [List.replicate_succ, dedupConsecutive, ih]

theorem dedupConsecutive_run (p s : String) (hne : s ≠ p) (n : ℕ) (hn : 0 < n)
    (rest : List String) :
    dedupConsecutive p (List.replicate n s ++ rest)
      = s :: dedupConsecutive s rest := by
  cases n with
  | zero => omega
  | succ m =>
    rw [List.replicate_succ, List.cons_append]
    simp [dedupConsecutive, hne, dedupConsecutive_replicate]

theorem dedupConsecutive_joinRuns (runs : List (String × ℕ)) (p : String)
    (hkeys : (runs.map Prod.fst).Nodup) (hp : p ∉ runs.map Prod.fst)
    (hpos : ∀ r ∈ runs, 0 < r.2) :
    dedupConsecutive p (joinRuns runs) = runs.map Prod.fst := by
  induction runs generalizing p with
  | nil => rfl
  | cons r rs ih =>
    obtain ⟨s, n⟩ := r
    have hne : s ≠ p := fun he => hp (by simp [he])
    have hn : 0 < n := hpos (s, n) (by simp)
    have hkeys' : (rs.map Prod.fst).Nodup := by
      simp only [List.map_cons, List.nodup_cons] at hkeys
      exact hkeys.2
    have hs : s ∉ rs.map Prod.fst := by
      simp only [List.map_cons, List.nodup_cons] at hkeys
      exact hkeys.1
    have hjoin : joinRuns ((s, n) :: rs) = List.replicate n s ++ joinRuns rs := by
      simp [joinRuns]
    rw [hjoin, dedupConsecutive_run p s hne n hn (joinRuns rs)
        , ih s hkeys' hs (fun r hr => hpos r (by simp [hr]))]
    simp

/-- Claim C9 amended: `listGroups` collapses only consecutive duplicates
of the insertion-ordered `(referenceFrame, type)` equal-range, so it
returns each group name exactly once provided all generators sharing a
group are contiguous in insertion order (and no group name is empty);
interleaved insertion orders can produce duplicates. -/
theorem listGroups_nodup_of_grouped (st : DetailState) (rf : String)
    (t : GenType) (runs : List (String × ℕ))
    (hready : st.ready = true)
    (hruns : (typeRange st rf t).map (fun g => g.rid.group) = joinRuns runs)
    (hkeys : (runs.map Prod.fst).Nodup)
    (hempty : "" ∉ runs.map Prod.fst)
    (hpos : ∀ r ∈ runs, 0 < r.2) :
    (detailListGroups st rf t = .ok (runs.map Prod.fst))
    ∧ (runs.map Prod.fst).Nodup := by
  refine ⟨?_, hkeys⟩
  have hcr : detailCheckReady st = .ok () := by simp [detailCheckReady, hready]
  simp only [detailListGroups, hcr, Bind.bind, Except.bind]
  rw [hruns, dedupConsecutive_joinRuns runs "" hkeys hempty hpos]

theorem listGroups_nodup_of_grouped_witness :
    (detailListGroups stGrouped "rf" .tms = .ok ["a", "b"])
    ∧ (["a", "b"] : List String).Nodup := by
  have h := listGroups_nodup_of_grouped stGrouped "rf" .tms [("a", 2), ("b", 1)]
    rfl (by decide) (by decide) (by decide) (by decide)
  exact h

end Mapproxy
